import Mathlib

/-!
Verification of the backfill orchestration system (appview-wg-bsky/backfill-bsky).

Shallow embedding of the parts of the source the claims are about:

* the rate-limited fetch client (`WrappedRPC.request`, `processRatelimitHeaders`,
  the `backoffs` ladder) from the supervisor entry file;
* the fetch scheduler's per-account routine (`queueRepo`);
* the repo-decode worker (`queue.process` handler, timestamp derivation and the
  `sendCommits` periodic emitter) from `src/backfill/workers/repo.ts`;
* the supervisor's `cluster.on("exit")` and `cluster.on("message")` handlers.

Machine time values are epoch milliseconds modelled as `Int`; process ids and
cluster worker ids are `Nat`. Fallible or effectful code is modelled as pure
functions returning the effects the claims talk about (sleeps performed,
files unlinked, messages sent, workers spawned).
-/

namespace BackfillBsky

/-! ## Rate-limited fetch client: `processRatelimitHeaders` -/

/-- A rate-limit header as the client observes it: absent (undefined or the
empty string, both falsy under the source's `!remainingHeader || !resetHeader`
guard), present but not parseable as an integer (`parseInt` returns NaN), or
present and parsed to an integer. -/
inductive HeaderVal
  | absent
  | unparseable
  | val (n : Int)
deriving DecidableEq, Repr

/-- `parseInt(header)`; `none` models NaN. -/
def parseIntHeader : HeaderVal → Option Int
  | .val n => some n
  | _ => none

/-- The source's `isNaN(ratelimitRemaining) || ratelimitRemaining <= 1`. -/
def isExhausted (remaining : HeaderVal) : Bool :=
  match parseIntHeader remaining with
  | none => true
  | some n => decide (n ≤ 1)

/-- `processRatelimitHeaders(headers, url, onRatelimit)`: returns the wait the
function passes to `onRatelimit` (the sleep it performs), or `none` when no
wait is applied. Mirrors the source: return early when either header is
absent; when the remaining count is NaN or ≤ 1, multiply the parsed reset by
1000, compute `waitTime = ratelimitReset - now + 1000`, and sleep only when
`waitTime > 0`; an unparseable reset only logs. -/
def processRatelimitHeaders (remaining reset : HeaderVal) (now : Int) : Option Int :=
  if remaining = HeaderVal.absent ∨ reset = HeaderVal.absent then none
  else if isExhausted remaining then
    match parseIntHeader reset with
    | none => none
    | some r =>
      let waitTime := r * 1000 - now + 1000
      if 0 < waitTime then some waitTime else none
  else none

/-! ## Rate-limited fetch client: `WrappedRPC.request` -/

/-- The source's `backoffs = [1_000, 5_000, 15_000, 30_000, 60_000, 120_000, 300_000]`
(milliseconds). -/
def backoffs : List Int := [1000, 5000, 15000, 30000, 60000, 120000, 300000]

/-- `backoffs[attempt] || 60000`: every ladder entry is nonzero, so the `||`
fallback fires exactly when the index is past the end of the array. -/
def backoffDelay (attempt : Nat) : Int :=
  backoffs.getD attempt 60000

/-- An error thrown by a single underlying request: a protocol error carrying a
status and the response's rate-limit headers, a `TypeError` (fetch failed to
establish a connection), or any other error. -/
inductive ReqError
  | xrpc (status : Nat) (remaining reset : HeaderVal)
  | typeErr
  | otherErr
deriving DecidableEq, Repr

/-- The outcome of one underlying `super.request` call: success (with the
response's rate-limit headers) or a thrown error. -/
inductive AttemptOutcome
  | ok (remaining reset : HeaderVal)
  | err (e : ReqError)
deriving DecidableEq, Repr

/-- Observable behaviour of one `WrappedRPC.request` invocation: how many
underlying attempts were made, the rate-limit sleeps performed (in order), the
backoff sleeps performed (attempt index paired with duration), and whether the
call returned a response (`success = false` means the last error was thrown to
the caller). -/
structure RunResult where
  attempts : Nat
  rateSleeps : List Int
  backoffSleeps : List (Nat × Int)
  success : Bool
deriving DecidableEq, Repr

/-- `WrappedRPC.request(options, attempt)`. The environment is a function
`outcomes` giving each attempt's underlying result and a function `now` giving
`Date.now()` at each attempt. Mirrors the source: on success, process the
rate-limit headers and return; in the catch block, rethrow when `attempt > 6`;
otherwise a 429 protocol error processes the rate-limit headers and retries,
any other protocol error rethrows, a `TypeError` rethrows, and any other error
sleeps `backoffs[attempt] || 60000` and retries with `attempt + 1`. -/
def requestFrom (outcomes : Nat → AttemptOutcome) (now : Nat → Int) (attempt : Nat) :
    RunResult :=
  match outcomes attempt with
  | .ok remaining reset =>
    { attempts := 1
      rateSleeps := (processRatelimitHeaders remaining reset (now attempt)).toList
      backoffSleeps := []
      success := true }
  | .err e =>
    if _h : 6 < attempt then
      { attempts := 1, rateSleeps := [], backoffSleeps := [], success := false }
    else
      match e with
      | .xrpc status remaining reset =>
        if status = 429 then
          let w := (processRatelimitHeaders remaining reset (now attempt)).toList
          let r := requestFrom outcomes now (attempt + 1)
          { attempts := r.attempts + 1
            rateSleeps := w ++ r.rateSleeps
            backoffSleeps := r.backoffSleeps
            success := r.success }
        else
          { attempts := 1, rateSleeps := [], backoffSleeps := [], success := false }
      | .typeErr =>
        { attempts := 1, rateSleeps := [], backoffSleeps := [], success := false }
      | .otherErr =>
        let r := requestFrom outcomes now (attempt + 1)
        { attempts := r.attempts + 1
          rateSleeps := r.rateSleeps
          backoffSleeps := (attempt, backoffDelay attempt) :: r.backoffSleeps
          success := r.success }
termination_by 7 - attempt
decreasing_by all_goals omega

/-! ## Fetch scheduler: `queueRepo` -/

/-- The outcome of `rpc.get("com.atproto.sync.getRepo", ...)` for one account:
a response body of the given byte length, a protocol error with its `name`, or
any other error. -/
inductive FetchOutcome
  | success (len : Nat)
  | xrpcError (name : String)
  | otherError
deriving DecidableEq, Repr

/-- Effects of one `queueRepo(pds, did)` call: whether the snapshot was written
to the ephemeral directory, whether a job was enqueued, and whether the did was
added to the `backfill:seen` set. -/
structure QueueRepoEffects where
  wroteSnapshot : Bool
  enqueued : Bool
  markedSeen : Bool
deriving DecidableEq, Repr

/-- The source's terminal-error test:
`err.name === "RepoDeactivated" || err.name === "RepoTakendown" || err.name === "RepoNotFound"`. -/
def terminalRepoError (name : String) : Bool :=
  name == "RepoDeactivated" || name == "RepoTakendown" || name == "RepoNotFound"

/-- `queueRepo(pds, did)`: on success with a non-empty body, write the snapshot
and enqueue a job keyed by the did; on a protocol error with a terminal name,
add the did to the seen set; on any other error, only log. -/
def queueRepo : FetchOutcome → QueueRepoEffects
  | .success len =>
    if len = 0 then { wroteSnapshot := false, enqueued := false, markedSeen := false }
    else { wroteSnapshot := true, enqueued := true, markedSeen := false }
  | .xrpcError name =>
    if terminalRepoError name then
      { wroteSnapshot := false, enqueued := false, markedSeen := true }
    else
      { wroteSnapshot := false, enqueued := false, markedSeen := false }
  | .otherError => { wroteSnapshot := false, enqueued := false, markedSeen := false }

/-! ## Repo-decode worker: timestamp derivation -/

/-- The `createdAt` field of a decoded record value, as the worker's guard
chain observes it: `missing` covers a non-object record, an absent `createdAt`
and a non-string `createdAt`; `unparseable` covers a string for which
`new Date(s).getTime()` is NaN; `time t` is a parsed epoch-millisecond value. -/
inductive CreatedAtField
  | missing
  | unparseable
  | time (t : Int)
deriving DecidableEq, Repr

/-- The record key as `parseTID(rkey)` sees it: `invalid` when `parseTID`
throws, `tid t` when it yields a timestamp. -/
inductive RkeyTid
  | invalid
  | tid (t : Int)
deriving DecidableEq, Repr

/-- The worker's `indexedAt` computation: `(... && new Date(...).getTime()) || 0`
collapses a missing or unparseable `createdAt` — and a `createdAt` that parses
to exactly 0 — to 0; `if (!indexedAt || isNaN(indexedAt))` then falls back to
`parseTID(rkey).timestamp`, or to `now` when `parseTID` throws; finally
`if (indexedAt > now) indexedAt = now`. -/
def computeIndexedAt (now : Int) (createdAt : CreatedAtField) (rkey : RkeyTid) : Int :=
  let indexedAt0 : Int :=
    match createdAt with
    | .time t => t
    | _ => 0
  let indexedAt1 : Int :=
    if indexedAt0 = 0 then
      match rkey with
      | .tid t => t
      | .invalid => now
    else indexedAt0
  if indexedAt1 > now then now else indexedAt1

/-- The timestamp rule exactly as claim C8 states it: prefer a present and
parseable `createdAt` unconditionally; otherwise the record key's embedded
timestamp when parseable; otherwise `now`; clamp the result down to `now`. -/
def claimedTimestampC8 (now : Int) (createdAt : CreatedAtField) (rkey : RkeyTid) : Int :=
  let chosen : Int :=
    match createdAt with
    | .time t => t
    | _ =>
      match rkey with
      | .tid t => t
      | .invalid => now
  if chosen > now then now else chosen

/-- The amended timestamp rule: prefer a present `createdAt` that parses to a
nonzero time; otherwise the record key's embedded timestamp when parseable;
otherwise `now`; clamp the result down to `now`. -/
def amendedTimestampC8 (now : Int) (createdAt : CreatedAtField) (rkey : RkeyTid) : Int :=
  let fallback : Int :=
    match rkey with
    | .tid t => t
    | .invalid => now
  let chosen : Int :=
    match createdAt with
    | .time t => if t = 0 then fallback else t
    | _ => fallback
  if chosen > now then now else chosen

/-! ## Repo-decode worker: job processing and the periodic emitter -/

/-- The slice of a decoded record value the worker inspects. -/
structure RecordValue where
  createdAt : CreatedAtField
deriving DecidableEq, Repr

/-- One element of the worker's `CommitData`: `{ uri, cid, timestamp, obj }`.
`timestamp` is the ISO-8601 instant, modelled as its epoch-millisecond value. -/
structure CommitData where
  uri : String
  cid : String
  timestamp : Int
  obj : RecordValue
deriving DecidableEq, Repr

/-- The worker's `CommitMessage`: `{ type: "commit", collection, commits }`. -/
structure CommitMessage where
  type : String
  collection : String
  commits : List CommitData
deriving DecidableEq, Repr

/-- One tick of the worker's `sendCommits` timer. The per-collection
accumulation buffer `commitData` is modelled as an association list in entry
order. The source iterates `Object.entries(commitData)` and sends one
`CommitMessage` per entry; it never removes anything from `commitData`, so the
returned buffer is the input buffer. -/
def sendCommits (commitData : List (String × List CommitData)) :
    List CommitMessage × List (String × List CommitData) :=
  (commitData.map fun p => { type := "commit", collection := p.1, commits := p.2 },
    commitData)

/-- The result of `Bun.mmap` on the snapshot path: an ENOENT throw, any other
throw, or the mapped bytes (of the given length). -/
inductive ReadOutcome
  | errENOENT
  | errOther
  | bytes (len : Nat)
deriving DecidableEq, Repr

/-- Effects of one `queue.process` job the claims are about: how many times
`fs.unlink` was called on the snapshot path, and whether the did was added to
the seen set. -/
structure JobEffects where
  unlinkCount : Nat
  seenAdded : Bool
deriving DecidableEq, Repr

/-- The worker's `queue.process` handler for one job. Mirrors the source:
an invalid did returns early; an ENOENT from `Bun.mmap` is "nothing to do";
any other read error (including the caught `"Got empty repo"` throw for a
zero-length mapping) returns early; otherwise the decode loop runs inside
`try { ... } catch { ... } finally { unlink }`, adding the did to the seen set
only when iteration completes without throwing, and unlinking exactly once in
the `finally` on both paths. `decodeOk` is whether `iterateAtpRepo` completed
without throwing. -/
def processJob (didValid : Bool) (read : ReadOutcome) (decodeOk : Bool) : JobEffects :=
  if !didValid then { unlinkCount := 0, seenAdded := false }
  else
    match read with
    | .errENOENT => { unlinkCount := 0, seenAdded := false }
    | .errOther => { unlinkCount := 0, seenAdded := false }
    | .bytes 0 => { unlinkCount := 0, seenAdded := false }
    | .bytes (_ + 1) =>
      if decodeOk then { unlinkCount := 1, seenAdded := true }
      else { unlinkCount := 1, seenAdded := false }

/-! ## Supervisor: worker bookkeeping and the exit handler -/

/-- The role of a spawned worker process; a write-by-collection worker carries
its slot index (its `WORKER_INDEX`). -/
inductive WorkerKind
  | repo
  | writeCollection (slot : Nat)
  | writeRecord
deriving DecidableEq, Repr

/-- One live cluster worker: OS pid, cluster worker id, role. -/
structure Worker where
  pid : Nat
  id : Nat
  kind : WorkerKind
deriving DecidableEq, Repr

/-- The supervisor's bookkeeping: the live cluster workers, the
`workers.writeCollection` pid-to-slot table, the pids and ids tracked in
`workers.writeRecord` and `workers.writeRecord2`, the pids tracked in
`workers.repo`, and the `collectionToWriteWorkerId` route table. -/
structure SupervisorState where
  live : List Worker
  writeCollectionTable : List (Nat × Nat)
  writeRecordPid : Nat
  writeRecordId : Nat
  writeRecord2Pid : Nat
  writeRecord2Id : Nat
  repoPids : List Nat
  route : List (String × Nat)
deriving DecidableEq, Repr

/-- First-match association lookup on a pid-keyed table (`pid in workers.writeCollection`
followed by `workers.writeCollection[pid]`). -/
def lookupSlot : List (Nat × Nat) → Nat → Option Nat
  | [], _ => none
  | (p, s) :: rest, pid => if p = pid then some s else lookupSlot rest pid

/-- First-match lookup in the collection route table (`collectionToWriteWorkerId.get`). -/
def lookupRoute : List (String × Nat) → String → Option Nat
  | [], _ => none
  | (c, i) :: rest, collection => if c = collection then some i else lookupRoute rest collection

/-- `collectionToWriteWorkerId.set(collection, worker.id)` for every collection
in a slot's allocation; newest binding shadows older ones under `lookupRoute`. -/
def setRoutes (route : List (String × Nat)) (collections : List String) (id_ : Nat) :
    List (String × Nat) :=
  collections.foldl (fun r c => (c, id_) :: r) route

/-- `spawnWriteCollectionWorker(i)`: fork a worker for slot `i`, record its pid
in the pid-to-slot table, and point every collection of `writeWorkerAllocations[i]`
at the new worker's id. `alloc` is the static `writeWorkerAllocations` table
(imported by the supervisor from the write-collection worker module). -/
def spawnWriteCollectionWorker (alloc : Nat → List String) (st : SupervisorState)
    (slot freshPid freshId : Nat) : SupervisorState :=
  { st with
    live := { pid := freshPid, id := freshId, kind := .writeCollection slot } :: st.live
    writeCollectionTable := (freshPid, slot) :: st.writeCollectionTable
    route := setRoutes st.route (alloc slot) freshId }

/-- `spawnWriteRecordWorker()`: forks two write-record workers and overwrites
both `workers.writeRecord` and `workers.writeRecord2` with the new pids/ids. -/
def spawnWriteRecordWorker (st : SupervisorState) (p1 i1 p2 i2 : Nat) : SupervisorState :=
  { st with
    live := { pid := p1, id := i1, kind := .writeRecord }
      :: { pid := p2, id := i2, kind := .writeRecord } :: st.live
    writeRecordPid := p1
    writeRecordId := i1
    writeRecord2Pid := p2
    writeRecord2Id := i2 }

/-- `spawnRepoWorker()`: forks one repo worker and records its pid. -/
def spawnRepoWorker (st : SupervisorState) (p i : Nat) : SupervisorState :=
  { st with
    live := { pid := p, id := i, kind := .repo } :: st.live
    repoPids := p :: st.repoPids }

/-- `cluster.workers?.[id]?.kill()`: removes the worker with that cluster id,
if any, from the live set. -/
def killById (st : SupervisorState) (i : Nat) : SupervisorState :=
  { st with live := st.live.filter fun w => w.id != i }

/-- The supervisor's `cluster.on("exit")` handler for one exit of the worker
with pid `pid`. The exited worker is no longer in `cluster.workers` when the
handler runs. `f1p/f1i` (and `f2p/f2i` for the pair-spawning branch) are the
fresh pid/id of the replacement fork(s). `none` models the handler throwing
`Unknown worker kind` (a fatal supervisor invariant violation). -/
def onExit (alloc : Nat → List String) (st : SupervisorState) (pid : Nat)
    (f1p f1i f2p f2i : Nat) : Option SupervisorState :=
  let st1 : SupervisorState := { st with live := st.live.filter fun w => w.pid != pid }
  if pid = 0 then some st1
  else
    match lookupSlot st1.writeCollectionTable pid with
    | some slot => some (spawnWriteCollectionWorker alloc st1 slot f1p f1i)
    | none =>
      if pid = st1.writeRecordPid then
        some (spawnWriteRecordWorker (killById st1 st1.writeRecordId) f1p f1i f2p f2i)
      else if pid = st1.writeRecord2Pid then
        some (spawnWriteRecordWorker (killById st1 st1.writeRecord2Id) f1p f1i f2p f2i)
      else if pid ∈ st1.repoPids then
        some (spawnRepoWorker st1 f1p f1i)
      else none

/-- The number of live write-record workers in a supervisor state. -/
def countWriteRecord (st : SupervisorState) : Nat :=
  (st.live.filter fun w => decide (w.kind = WorkerKind.writeRecord)).length

/-- A supervisor state at the configured targets: three write-by-collection
workers in slots 0, 1, 2; the pair of write-record workers tracked in
`workers.writeRecord` and `workers.writeRecord2`; one repo worker. Used to
exercise the exit handler on the exit of the first write-record worker. -/
def exitScenarioState : SupervisorState :=
  { live :=
      [ { pid := 11, id := 1, kind := .writeCollection 0 }
      , { pid := 12, id := 2, kind := .writeCollection 1 }
      , { pid := 13, id := 3, kind := .writeCollection 2 }
      , { pid := 21, id := 4, kind := .writeRecord }
      , { pid := 22, id := 5, kind := .writeRecord }
      , { pid := 31, id := 6, kind := .repo } ]
    writeCollectionTable := [(11, 0), (12, 1), (13, 2)]
    writeRecordPid := 21
    writeRecordId := 4
    writeRecord2Pid := 22
    writeRecord2Id := 5
    repoPids := [31]
    route := [] }

/-! ## Supervisor: the message handler -/

/-- An incoming worker message as the supervisor's validation observes it:
`collection` is `none` when absent (`some ""` is likewise falsy under
`!message.collection`), `commits` is `none` when absent or null. -/
structure Msg where
  type : String
  collection : Option String
  commits : Option (List CommitData)
deriving DecidableEq, Repr

/-- JavaScript string falsiness: absent or the empty string. -/
def strFalsy : Option String → Bool
  | none => true
  | some s => s == ""

/-- The supervisor's reaction to one worker message. -/
inductive RouteResult
  | fatal
  | ignored
  | dropped
  | forward (writeCollectionId writeRecordId : Nat) (payload : Msg)
deriving DecidableEq, Repr

/-- The supervisor's `cluster.on("message")` handler. Mirrors the source:
throw on a malformed message (`type` not `"commit"`, falsy `collection`,
missing `commits`); return on an empty commits list; return (silently drop)
when the collection is not in the route table; otherwise send the identical
message to the route-resolved write-by-collection worker and to one of the two
write-record workers chosen by `Math.random() < 0.5` (`rand = true` picks
`workers.writeRecord`, `rand = false` picks `workers.writeRecord2`). -/
def onMessage (route : List (String × Nat)) (writeRecordId writeRecord2Id : Nat)
    (rand : Bool) (m : Msg) : RouteResult :=
  if m.type != "commit" then .fatal
  else if strFalsy m.collection then .fatal
  else if m.commits = none then .fatal
  else
    let commits := m.commits.getD []
    if commits.length = 0 then .ignored
    else
      match lookupRoute route (m.collection.getD "") with
      | none => .dropped
      | some wcId => .forward wcId (if rand then writeRecordId else writeRecord2Id) m

/-! ## Helper lemmas about `requestFrom` -/

/-- Past the retry guard (`attempt > 6`) any failure is rethrown at once, and a
success returns at once: exactly one underlying attempt happens. -/
theorem requestFrom_attempts_high (o : Nat → AttemptOutcome) (now : Nat → Int) (a : Nat)
    (h : 6 < a) : (requestFrom o now a).attempts = 1 := by
  rw [requestFrom.eq_def]
  split
  · rfl
  · rw [dif_pos h]

/-- Each level of the retry recursion adds at most one underlying attempt. -/
theorem requestFrom_attempts_step (o : Nat → AttemptOutcome) (now : Nat → Int) (a : Nat) :
    (requestFrom o now a).attempts ≤ (requestFrom o now (a + 1)).attempts + 1 := by
  rw [requestFrom.eq_def]
  split
  · simp
  · split
    · simp
    · split
      · split
        · simp
        · simp
      · simp
      · simp

/-- A retried network-level failure adds exactly one underlying attempt. -/
theorem requestFrom_attempts_otherErr (o : Nat → AttemptOutcome) (now : Nat → Int) (a : Nat)
    (h1 : o a = .err .otherErr) (h2 : ¬ 6 < a) :
    (requestFrom o now a).attempts = (requestFrom o now (a + 1)).attempts + 1 := by
  rw [requestFrom.eq_def, h1]
  simp [h2]

/-- A retried network-level failure records its backoff sleep first. -/
theorem requestFrom_backoff_head (o : Nat → AttemptOutcome) (now : Nat → Int) (a : Nat)
    (h1 : o a = .err .otherErr) (h2 : ¬ 6 < a) :
    (requestFrom o now a).backoffSleeps.head? = some (a, backoffDelay a) := by
  rw [requestFrom.eq_def, h1]
  simp [h2]

/-- High attempts perform no backoff sleep. -/
theorem requestFrom_backoffSleeps_high (o : Nat → AttemptOutcome) (now : Nat → Int) (a : Nat)
    (h : 6 < a) : (requestFrom o now a).backoffSleeps = [] := by
  rw [requestFrom.eq_def]
  split
  · rfl
  · rw [dif_pos h]

/-- Every backoff sleep performed by a request run pairs an attempt index of at
most 6 with the delay `backoffs[attempt] || 60000` at that index. Induction on
an upper bound for the recursion depth. -/
theorem requestFrom_backoffSleeps_sound (o : Nat → AttemptOutcome) (now : Nat → Int) :
    ∀ (k a : Nat), 7 - a ≤ k → ∀ p ∈ (requestFrom o now a).backoffSleeps,
      p.2 = backoffDelay p.1 ∧ p.1 ≤ 6 := by
  intro k
  induction k with
  | zero =>
    intro a ha p hp
    rw [requestFrom_backoffSleeps_high o now a (by omega)] at hp
    exact absurd hp (List.not_mem_nil p)
  | succ k ih =>
    intro a ha p hp
    by_cases h6 : 6 < a
    · rw [requestFrom_backoffSleeps_high o now a h6] at hp
      exact absurd hp (List.not_mem_nil p)
    · rcases ho : o a with ⟨rem, rst⟩ | ⟨e⟩
      · rw [requestFrom.eq_def, ho] at hp
        simp at hp
      · rcases e with ⟨status, rem, rst⟩ | _ | _
        · by_cases hs : status = 429
          · subst hs
            rw [requestFrom.eq_def, ho] at hp
            simp [h6] at hp
            exact ih (a + 1) (by omega) p hp
          · rw [requestFrom.eq_def, ho] at hp
            simp [h6, hs] at hp
        · rw [requestFrom.eq_def, ho] at hp
          simp [h6] at hp
        · rw [requestFrom.eq_def, ho] at hp
          simp [h6] at hp
          rcases hp with rfl | hp
          · exact ⟨rfl, by omega⟩
          · exact ih (a + 1) (by omega) p hp

/-- The success path returns the response after applying the rate-limit wait
computed from the response's headers. -/
theorem requestFrom_ok (o : Nat → AttemptOutcome) (now : Nat → Int) (a : Nat)
    (rem rst : HeaderVal) (h : o a = .ok rem rst) :
    (requestFrom o now a).rateSleeps = (processRatelimitHeaders rem rst (now a)).toList
      ∧ (requestFrom o now a).success = true := by
  refine ⟨?_, ?_⟩ <;> rw [requestFrom.eq_def, h]

/-- A 429 under the retry guard applies the rate-limit wait, then retries. -/
theorem requestFrom_rateSleeps_429 (o : Nat → AttemptOutcome) (now : Nat → Int) (a : Nat)
    (rem rst : HeaderVal) (h1 : o a = .err (.xrpc 429 rem rst)) (h2 : ¬ 6 < a) :
    (requestFrom o now a).rateSleeps
      = (processRatelimitHeaders rem rst (now a)).toList
        ++ (requestFrom o now (a + 1)).rateSleeps := by
  rw [requestFrom.eq_def, h1]
  simp [h2]

/-- A non-429 protocol error is rethrown without consulting rate-limit headers:
no rate-limit sleep happens. -/
theorem requestFrom_rateSleeps_throw (o : Nat → AttemptOutcome) (now : Nat → Int) (a : Nat)
    (s : Nat) (rem rst : HeaderVal) (h1 : o a = .err (.xrpc s rem rst)) (h2 : s ≠ 429) :
    (requestFrom o now a).rateSleeps = [] := by
  rw [requestFrom.eq_def, h1]
  by_cases h3 : 6 < a
  · simp [h3]
  · simp [h3, h2]

/-! ## Claim C2 — retry bound of `WrappedRPC.request` -/

/-- Claim C2 as stated is false: with `attempt` starting at 0 and the guard
`if (attempt > 6) throw err`, a persistently failing request performs the
attempts at indices 0 through 7 — 8 total attempts, not at most 7. Concrete
input: every underlying attempt throws a generic (retryable) error. -/
theorem c2_counterexample :
    (requestFrom (fun _ => .err .otherErr) (fun _ => 0) 0).attempts = 8
      ∧ ¬ (requestFrom (fun _ => .err .otherErr) (fun _ => 0) 0).attempts ≤ 7 := by
  have h7 := requestFrom_attempts_high (fun _ => .err .otherErr) (fun _ => (0 : Int)) 7
    (by omega)
  have e0 := requestFrom_attempts_otherErr (fun _ => .err .otherErr) (fun _ => (0 : Int)) 0
    rfl (by omega)
  have e1 := requestFrom_attempts_otherErr (fun _ => .err .otherErr) (fun _ => (0 : Int)) 1
    rfl (by omega)
  have e2 := requestFrom_attempts_otherErr (fun _ => .err .otherErr) (fun _ => (0 : Int)) 2
    rfl (by omega)
  have e3 := requestFrom_attempts_otherErr (fun _ => .err .otherErr) (fun _ => (0 : Int)) 3
    rfl (by omega)
  have e4 := requestFrom_attempts_otherErr (fun _ => .err .otherErr) (fun _ => (0 : Int)) 4
    rfl (by omega)
  have e5 := requestFrom_attempts_otherErr (fun _ => .err .otherErr) (fun _ => (0 : Int)) 5
    rfl (by omega)
  have e6 := requestFrom_attempts_otherErr (fun _ => .err .otherErr) (fun _ => (0 : Int)) 6
    rfl (by omega)
  norm_num at e0 e1 e2 e3 e4 e5 e6
  omega

/-- C2 amended: for every logical request, `WrappedRPC.request` performs at
most 8 total underlying attempts (the initial attempt plus up to 7 retries)
before surfacing the final failure to the caller. -/
theorem c2_amended (o : Nat → AttemptOutcome) (now : Nat → Int) :
    (requestFrom o now 0).attempts ≤ 8 := by
  have s0 := requestFrom_attempts_step o now 0
  have s1 := requestFrom_attempts_step o now 1
  have s2 := requestFrom_attempts_step o now 2
  have s3 := requestFrom_attempts_step o now 3
  have s4 := requestFrom_attempts_step o now 4
  have s5 := requestFrom_attempts_step o now 5
  have s6 := requestFrom_attempts_step o now 6
  have h7 := requestFrom_attempts_high o now 7 (by omega)
  norm_num at s0 s1 s2 s3 s4 s5 s6
  omega

/-! ## Claim C3 — backoff ladder for network-level failures -/

/-- Claim C3 as stated is false at the concrete index 7 (the first index past
the ladder): the source's fallback `backoffs[attempt] || 60000` yields 60000 ms
(60 seconds), not the ladder's last value of 300000 ms (300 seconds). -/
theorem c3_counterexample :
    backoffDelay 7 = 60000 ∧ ¬ backoffDelay 7 = 300000 := by
  constructor
  · rfl
  · decide

/-- C3 amended: on a network-level failure (neither a protocol error, nor a
rate-limit response, nor a connection-establishment failure) at attempt index
`n`, the client sleeps `backoffs[n]` before retrying; every backoff sleep a
request run performs uses its attempt index and that index never exceeds 6 (the
retry guard rethrows first), the ladder is 1, 5, 15, 30, 60, 120, 300 seconds,
and for an index past the ladder the fallback delay is a fixed 60 seconds (not
the ladder's last value) — a case no run reaches. -/
theorem c3_amended :
    (∀ (o : Nat → AttemptOutcome) (now : Nat → Int) (a : Nat),
        o a = .err .otherErr → ¬ 6 < a →
        (requestFrom o now a).backoffSleeps.head? = some (a, backoffDelay a))
    ∧ (∀ (o : Nat → AttemptOutcome) (now : Nat → Int) (a : Nat),
        ∀ p ∈ (requestFrom o now a).backoffSleeps, p.2 = backoffDelay p.1 ∧ p.1 ≤ 6)
    ∧ (backoffDelay 0 = 1000 ∧ backoffDelay 1 = 5000 ∧ backoffDelay 2 = 15000
        ∧ backoffDelay 3 = 30000 ∧ backoffDelay 4 = 60000 ∧ backoffDelay 5 = 120000
        ∧ backoffDelay 6 = 300000)
    ∧ (∀ n : Nat, 6 < n → backoffDelay n = 60000) := by
  refine ⟨requestFrom_backoff_head, ?_, by decide, ?_⟩
  · intro o now a
    exact requestFrom_backoffSleeps_sound o now 7 a (by omega)
  · intro n hn
    obtain ⟨m, rfl⟩ : ∃ m, n = m + 7 := ⟨n - 7, by omega⟩
    simp [backoffDelay, backoffs, List.getD_cons_succ, List.getD_nil]

/-- Witness for C3: a persistently failing run sleeps the first ladder entry at
attempt 0; that sleep is listed by the soundness conjunct; the ladder tops out
at 300 s at index 6; index 9 falls back to 60 s. -/
theorem c3_amended_witness :
    (requestFrom (fun _ => .err .otherErr) (fun _ => 0) 0).backoffSleeps.head?
        = some (0, backoffDelay 0)
    ∧ ((0, backoffDelay 0).2 = backoffDelay (0, backoffDelay 0).1
        ∧ (0, backoffDelay 0).1 ≤ 6)
    ∧ backoffDelay 6 = 300000
    ∧ backoffDelay 9 = 60000 := by
  refine ⟨c3_amended.1 (fun _ => .err .otherErr) (fun _ => 0) 0 rfl (by omega), ?_,
    c3_amended.2.2.1.2.2.2.2.2.2, c3_amended.2.2.2 9 (by omega)⟩
  apply c3_amended.2.1 (fun _ => .err .otherErr) (fun _ => 0) 0
  apply List.mem_of_mem_head?
  rw [c3_amended.1 (fun _ => .err .otherErr) (fun _ => 0) 0 rfl (by omega)]
  rfl

/-! ## Claims C5 and C10 — rate-limit wait behaviour -/

/-- Any wait `processRatelimitHeaders` actually applies is strictly positive. -/
theorem processRatelimitHeaders_pos (rem rst : HeaderVal) (now w : Int)
    (h : processRatelimitHeaders rem rst now = some w) : 0 < w := by
  unfold processRatelimitHeaders at h
  split at h
  · simp at h
  · split at h
    · split at h
      · simp at h
      · dsimp only at h
        split at h
        · rw [Option.some_inj] at h
          omega
        · simp at h
    · simp at h

/-- With both headers parsed and the remaining count exhausted, the applied
wait is `reset * 1000 - now + 1000`, applied exactly when positive. -/
theorem processRatelimitHeaders_exhausted (n t now_ : Int) (h : n ≤ 1) :
    processRatelimitHeaders (.val n) (.val t) now_ =
      if 0 < t * 1000 - now_ + 1000 then some (t * 1000 - now_ + 1000) else none := by
  simp [processRatelimitHeaders, isExhausted, parseIntHeader, h]

/-- Claim C5 as stated is false: a failure response that is a protocol error
with a non-429 status (here 400) carrying present, exhausted rate-limit headers
with a strictly positive computed wait (11000 ms) is rethrown without any
rate-limit sleep. -/
theorem c5_counterexample :
    (requestFrom (fun _ => .err (.xrpc 400 (.val 0) (.val 10))) (fun _ => 0) 0).rateSleeps
        = []
      ∧ processRatelimitHeaders (.val 0) (.val 10) 0 = some 11000 := by
  constructor
  · exact requestFrom_rateSleeps_throw _ _ 0 400 (.val 0) (.val 10) rfl (by omega)
  · decide

/-- C5 amended: every wait the client applies is strictly positive (a computed
wait ≤ 0 is never applied); with headers present and the remaining count ≤ 1
the computed wait is `resetTime * 1000 - now + 1000` and it is applied exactly
when strictly positive; the wait is applied proactively after every successful
response and after every explicit rate-limit (429) failure before its retry;
any other failure is surfaced without consulting rate-limit headers. -/
theorem c5_amended :
    (∀ (rem rst : HeaderVal) (now_ w : Int),
        processRatelimitHeaders rem rst now_ = some w → 0 < w)
    ∧ (∀ (n t now_ : Int), n ≤ 1 →
        processRatelimitHeaders (.val n) (.val t) now_ =
          if 0 < t * 1000 - now_ + 1000 then some (t * 1000 - now_ + 1000) else none)
    ∧ (∀ (o : Nat → AttemptOutcome) (now : Nat → Int) (a : Nat) (rem rst : HeaderVal),
        o a = .ok rem rst →
        (requestFrom o now a).rateSleeps = (processRatelimitHeaders rem rst (now a)).toList
          ∧ (requestFrom o now a).success = true)
    ∧ (∀ (o : Nat → AttemptOutcome) (now : Nat → Int) (a : Nat) (rem rst : HeaderVal),
        o a = .err (.xrpc 429 rem rst) → ¬ 6 < a →
        (requestFrom o now a).rateSleeps
          = (processRatelimitHeaders rem rst (now a)).toList
            ++ (requestFrom o now (a + 1)).rateSleeps)
    ∧ (∀ (o : Nat → AttemptOutcome) (now : Nat → Int) (a s : Nat) (rem rst : HeaderVal),
        o a = .err (.xrpc s rem rst) → s ≠ 429 →
        (requestFrom o now a).rateSleeps = []) :=
  ⟨processRatelimitHeaders_pos, processRatelimitHeaders_exhausted,
    fun o now a rem rst h => requestFrom_ok o now a rem rst h,
    fun o now a rem rst h1 h2 => requestFrom_rateSleeps_429 o now a rem rst h1 h2,
    fun o now a s rem rst h1 h2 => requestFrom_rateSleeps_throw o now a s rem rst h1 h2⟩

/-- Witness for C5: remaining = 0, reset = 10 s, now = 0 gives the positive wait
11000 ms; a successful response sleeps it; a 429 sleeps it before its retry; a
500 protocol error sleeps nothing. -/
theorem c5_amended_witness :
    0 < (11000 : Int)
    ∧ processRatelimitHeaders (.val 0) (.val 10) 0 = some 11000
    ∧ (requestFrom (fun _ => .ok (.val 0) (.val 10)) (fun _ => 0) 0).rateSleeps
        = [(11000 : Int)]
    ∧ (requestFrom
          (fun a => if a = 0 then .err (.xrpc 429 (.val 0) (.val 10))
            else .ok .absent .absent)
          (fun _ => 0) 0).rateSleeps = [(11000 : Int)]
    ∧ (requestFrom (fun _ => .err (.xrpc 500 (.val 0) (.val 10))) (fun _ => 0) 0).rateSleeps
        = [] := by
  have hp : processRatelimitHeaders (HeaderVal.val 0) (HeaderVal.val 10) 0 = some 11000 := by
    rw [c5_amended.2.1 0 10 0 (by omega)]
    norm_num
  refine ⟨c5_amended.1 _ _ _ _ hp, hp, ?_, ?_,
    c5_amended.2.2.2.2 _ _ 0 500 (.val 0) (.val 10) rfl (by omega)⟩
  · have h := (c5_amended.2.2.1 (fun _ => .ok (.val 0) (.val 10)) (fun _ => 0) 0
      (.val 0) (.val 10) rfl).1
    rw [h, hp]
    rfl
  · have h := c5_amended.2.2.2.1
      (fun a => if a = 0 then .err (.xrpc 429 (.val 0) (.val 10)) else .ok .absent .absent)
      (fun _ => 0) 0 (.val 0) (.val 10) rfl (by omega)
    rw [h, hp]
    have h2 := (c5_amended.2.2.1
      (fun a => if a = 0 then .err (.xrpc 429 (.val 0) (.val 10)) else .ok .absent .absent)
      (fun _ => 0) 1 HeaderVal.absent HeaderVal.absent rfl).1
    rw [h2]
    rfl

/-- C10 confirmed: a present but unparseable ratelimit-remaining header is
treated exactly like an exhausted parsed count (≤ 1), and an absent
ratelimit-remaining or ratelimit-reset header means no wait is ever applied. -/
theorem c10_confirmed :
    (∀ (rst : HeaderVal) (now_ n : Int), n ≤ 1 →
        processRatelimitHeaders .unparseable rst now_
          = processRatelimitHeaders (.val n) rst now_)
    ∧ (∀ (rem rst : HeaderVal) (now_ : Int),
        processRatelimitHeaders HeaderVal.absent rst now_ = none
          ∧ processRatelimitHeaders rem HeaderVal.absent now_ = none) := by
  constructor
  · intro rst now_ n h
    cases rst <;> simp [processRatelimitHeaders, isExhausted, parseIntHeader, h]
  · intro rem rst now_
    constructor <;> simp [processRatelimitHeaders]

/-- Witness for C10 at concrete headers. -/
theorem c10_confirmed_witness :
    processRatelimitHeaders .unparseable (.val 10) 0
        = processRatelimitHeaders (.val 1) (.val 10) 0
    ∧ processRatelimitHeaders .absent (.val 10) 0 = none
    ∧ processRatelimitHeaders (.val 0) .absent 0 = none :=
  ⟨c10_confirmed.1 (.val 10) 0 1 (by omega),
    (c10_confirmed.2 (.val 0) (.val 10) 0).1,
    (c10_confirmed.2 (.val 0) (.val 10) 0).2⟩

/-! ## Claim C1 — the periodic emitter never clears its buffer -/

/-- Claim C1 describes the intended rolling buffer, but the code never removes
emitted records from `commitData`: with one record accumulated and no appends
between ticks, the second `sendCommits` tick re-emits exactly the same record
batch, and the buffer after two ticks still holds the record. -/
theorem c1_buffer_not_cleared :
    (let r : CommitData :=
      { uri := "at://did:plc:ab/app.bsky.feed.post/3k", cid := "bafyrec",
        timestamp := 0, obj := { createdAt := .missing } }
     let buf0 : List (String × List CommitData) := [("app.bsky.feed.post", [r])]
     let tick1 := sendCommits buf0
     let tick2 := sendCommits tick1.2
     tick1.1 = [{ type := "commit", collection := "app.bsky.feed.post", commits := [r] }]
       ∧ tick2.1 = tick1.1
       ∧ tick2.2 = buf0) :=
  ⟨rfl, rfl, rfl⟩

/-! ## Claim C4 — the exit handler for a write-record worker -/

/-- Claim C4 fails on the code for the write-record role: starting from the
configured targets (three write-by-collection slots, the tracked write-record
pair 21/22, one repo worker), the exit of write-record worker pid 21 makes the
handler kill the already-dead worker's own cluster id and then spawn TWO fresh
write-record workers (pids 41 and 42), so three write-record workers are live,
the surviving sibling pid 22 is tracked nowhere — and a later exit of pid 22
hits the `Unknown worker kind` fatal branch. -/
theorem c4_write_record_untracked :
    ((onExit (fun _ => []) exitScenarioState 21 41 7 42 8).map
        (fun st => (countWriteRecord st, st.writeRecordPid, st.writeRecord2Pid,
          decide (22 ∈ st.live.map Worker.pid),
          lookupSlot st.writeCollectionTable 22,
          decide (22 ∈ st.repoPids))))
      = some (3, 41, 42, true, none, false)
    ∧ ((onExit (fun _ => []) exitScenarioState 21 41 7 42 8).bind
        (fun st => onExit (fun _ => []) st 22 51 9 52 10)) = none := by
  constructor
  · rfl
  · rfl

/-! ## Claim C6 — snapshot cleanup on every exit path -/

/-- C6 confirmed: for every job whose snapshot bytes were successfully mapped
and are non-empty, the decode worker unlinks the snapshot file exactly once,
whether the decode iteration succeeds or throws (the `finally` block). -/
theorem c6_cleanup (len : Nat) (decodeOk : Bool) :
    (processJob true (.bytes (len + 1)) decodeOk).unlinkCount = 1 := by
  cases decodeOk <;> rfl

/-! ## Claim C7 — seen-set handling of fetch failures -/

/-- C7 confirmed: a fetch failing with a terminal protocol error (name
`RepoDeactivated`, `RepoTakendown` or `RepoNotFound`) marks the account seen
and enqueues nothing; a fetch failing with a protocol error of any other name,
or with a non-protocol error, neither marks the account seen nor enqueues. -/
theorem c7_terminal_errors :
    (∀ name : String, terminalRepoError name = true →
        queueRepo (.xrpcError name)
          = { wroteSnapshot := false, enqueued := false, markedSeen := true })
    ∧ (∀ name : String, terminalRepoError name = false →
        queueRepo (.xrpcError name)
          = { wroteSnapshot := false, enqueued := false, markedSeen := false })
    ∧ queueRepo .otherError
        = { wroteSnapshot := false, enqueued := false, markedSeen := false } := by
  refine ⟨?_, ?_, rfl⟩ <;> intro name h <;> simp [queueRepo, h]

/-- Witness for C7 at the three terminal names, a non-terminal protocol error
and a non-protocol error. -/
theorem c7_terminal_errors_witness :
    queueRepo (.xrpcError "RepoDeactivated")
        = { wroteSnapshot := false, enqueued := false, markedSeen := true }
    ∧ queueRepo (.xrpcError "RepoTakendown")
        = { wroteSnapshot := false, enqueued := false, markedSeen := true }
    ∧ queueRepo (.xrpcError "RepoNotFound")
        = { wroteSnapshot := false, enqueued := false, markedSeen := true }
    ∧ queueRepo (.xrpcError "InternalServerError")
        = { wroteSnapshot := false, enqueued := false, markedSeen := false }
    ∧ queueRepo .otherError
        = { wroteSnapshot := false, enqueued := false, markedSeen := false } :=
  ⟨c7_terminal_errors.1 "RepoDeactivated" (by decide),
    c7_terminal_errors.1 "RepoTakendown" (by decide),
    c7_terminal_errors.1 "RepoNotFound" (by decide),
    c7_terminal_errors.2.1 "InternalServerError" (by decide),
    c7_terminal_errors.2.2⟩

/-! ## Claim C8 — timestamp derivation -/

/-- Claim C8 as stated is false at a concrete record: a `createdAt` that is
present and parseable but equal to exactly the epoch (0 ms) is collapsed by the
source's `|| 0` and falls through to the record key's timestamp (here 5),
whereas the claim dictates using the parsed `createdAt` (0). -/
theorem c8_counterexample :
    computeIndexedAt 100 (.time 0) (.tid 5) = 5
      ∧ claimedTimestampC8 100 (.time 0) (.tid 5) = 0
      ∧ (5 : Int) ≠ 0 :=
  ⟨rfl, rfl, by decide⟩

/-- C8 amended: the decoded record's timestamp prefers a `createdAt` that is
present and parseable to a nonzero time; otherwise the record key's embedded
timestamp when parseable; otherwise the wall clock at decode; and the chosen
value is clamped down to the decode-time wall clock when it lies in the
future. -/
theorem c8_amended (now : Int) (createdAt : CreatedAtField) (rkey : RkeyTid) :
    computeIndexedAt now createdAt rkey = amendedTimestampC8 now createdAt rkey := by
  cases createdAt <;> cases rkey <;> rfl

/-! ## Claim C9 — supervisor message routing -/

/-- C9 confirmed: a malformed message (`type` not `"commit"`, falsy collection,
or missing commits list) is fatal; a well-formed empty batch is ignored; a
well-formed non-empty batch with an unrouted collection is silently dropped;
otherwise the identical message goes to the route-resolved write-by-collection
worker and to the write-record worker selected by the random draw. -/
theorem c9_routing (route : List (String × Nat)) (wr1 wr2 : Nat) (rand : Bool) (m : Msg) :
    (m.type ≠ "commit" → onMessage route wr1 wr2 rand m = .fatal)
    ∧ (strFalsy m.collection = true → onMessage route wr1 wr2 rand m = .fatal)
    ∧ (m.commits = none → onMessage route wr1 wr2 rand m = .fatal)
    ∧ (∀ c, m.type = "commit" → m.collection = some c → ¬ c = "" →
        m.commits = some [] → onMessage route wr1 wr2 rand m = .ignored)
    ∧ (∀ c l, m.type = "commit" → m.collection = some c → ¬ c = "" →
        m.commits = some l → l ≠ [] → lookupRoute route c = none →
        onMessage route wr1 wr2 rand m = .dropped)
    ∧ (∀ c l wcId, m.type = "commit" → m.collection = some c → ¬ c = "" →
        m.commits = some l → l ≠ [] → lookupRoute route c = some wcId →
        onMessage route wr1 wr2 rand m
          = .forward wcId (if rand then wr1 else wr2) m) := by
  refine ⟨?_, ?_, ?_, ?_, ?_, ?_⟩
  · intro h
    simp [onMessage, h]
  · intro h
    simp [onMessage, h]
  · intro h
    simp [onMessage, h]
  · intro c h1 h2 h3 h4
    simp [onMessage, h1, h2, h3, h4, strFalsy]
  · intro c l h1 h2 h3 h4 h5 h6
    simp [onMessage, h1, h2, h3, h4, h5, h6, strFalsy]
  · intro c l wcId h1 h2 h3 h4 h5 h6
    simp [onMessage, h1, h2, h3, h4, h5, h6, strFalsy]

/-- Witness for C9: each handler outcome at a concrete message, with the route
table sending `app.bsky.feed.post` to write-by-collection worker id 3 and the
random draw (`true`) picking write-record worker id 4. -/
theorem c9_routing_witness :
    onMessage [("app.bsky.feed.post", 3)] 4 5 true
        { type := "bad", collection := some "app.bsky.feed.post", commits := some [] }
      = .fatal
    ∧ onMessage [("app.bsky.feed.post", 3)] 4 5 true
        { type := "commit", collection := none, commits := some [] } = .fatal
    ∧ onMessage [("app.bsky.feed.post", 3)] 4 5 true
        { type := "commit", collection := some "app.bsky.feed.post", commits := none }
      = .fatal
    ∧ onMessage [("app.bsky.feed.post", 3)] 4 5 true
        { type := "commit", collection := some "app.bsky.feed.post", commits := some [] }
      = .ignored
    ∧ onMessage [("app.bsky.feed.post", 3)] 4 5 true
        { type := "commit", collection := some "com.example.other",
          commits := some [⟨"u", "c", 0, ⟨.missing⟩⟩] } = .dropped
    ∧ onMessage [("app.bsky.feed.post", 3)] 4 5 true
        { type := "commit", collection := some "app.bsky.feed.post",
          commits := some [⟨"u", "c", 0, ⟨.missing⟩⟩] }
      = .forward 3 4
          { type := "commit", collection := some "app.bsky.feed.post",
            commits := some [⟨"u", "c", 0, ⟨.missing⟩⟩] } :=
  ⟨(c9_routing _ _ _ _ _).1 (by decide),
    (c9_routing _ _ _ _ _).2.1 (by decide),
    (c9_routing _ _ _ _ _).2.2.1 rfl,
    (c9_routing _ _ _ _ _).2.2.2.1 "app.bsky.feed.post" rfl rfl (by decide) rfl,
    (c9_routing _ _ _ _ _).2.2.2.2.1 "com.example.other" [⟨"u", "c", 0, ⟨.missing⟩⟩]
      rfl rfl (by decide) rfl (by decide) rfl,
    (c9_routing _ _ _ _ _).2.2.2.2.2 "app.bsky.feed.post" [⟨"u", "c", 0, ⟨.missing⟩⟩]
      3 rfl rfl (by decide) rfl (by decide) rfl⟩

end BackfillBsky
